import Mathlib

/-!
Shallow embedding of the dcrdata explorer live-update layer: the guarded
shared-state store with its producer entry points (`Store`, `StoreMPData`),
the address-history reduction (`ReduceAddressHistory`), and a model of the
websocket hub control interface.  The lock acquisitions, record writes and
channel sends performed by the producer entry points are recorded as an
explicit event trace, so ordering and lock-discipline properties can be
stated about the traces while the data updates are stated about the
returned state.
-/

namespace Explorer

/-- dcrutil.Amount: an int64 count of atoms (external dcrutil library). -/
abbrev Amount := Int

/-- dcrutil.Amount.ToCoin computes float64(a)/1e8; modelled over the rationals. -/
def Amount.ToCoin (a : Amount) : Rat := (a : Rat) / 100000000

/-- Modelled from the spec and the call in ReduceAddressHistory:
dbtypes.AddressRow is not under src; these are the fields the function reads. -/
structure AddressRow where
  Address : String := ""
  FundingTxHash : String := ""
  FundingTxVoutIndex : Nat := 0
  SpendingTxHash : String := ""
  SpendingTxVinIndex : Nat := 0
  Value : Nat := 0
deriving DecidableEq

/-- AddressTx models data for transactions on the address page
(explorertypes.go).  Go float64 fields are modelled as rationals. -/
structure AddressTx where
  TxID : String := ""
  InOutID : Nat := 0
  FormattedSize : String := ""
  Total : Rat := 0
  Confirmations : Nat := 0
  Time : Int := 0
  FormattedTime : String := ""
  ReceivedTotal : Rat := 0
  SentTotal : Rat := 0
deriving DecidableEq

/-- AddressBalance represents the number and value of spent and unspent
outputs for an address (explorertypes.go). -/
structure AddressBalance where
  Address : String := ""
  NumSpent : Int := 0
  NumUnspent : Int := 0
  TotalSpent : Int := 0
  TotalUnspent : Int := 0
deriving DecidableEq

/-- AddressInfo models data for display on the address page
(explorertypes.go).  Pointer fields are modelled as values, the Balance
pointer as an Option. -/
structure AddressInfo where
  Address : String := ""
  MaxTxLimit : Int := 0
  Fullmode : Bool := false
  Path : String := ""
  Limit : Int := 0
  Offset : Int := 0
  TxnType : String := ""
  NumUnconfirmed : Int := 0
  Transactions : List AddressTx := []
  TxnsFunding : List AddressTx := []
  TxnsSpending : List AddressTx := []
  NumTransactions : Int := 0
  NumFundingTxns : Int := 0
  NumSpendingTxns : Int := 0
  AmountReceived : Amount := 0
  AmountSent : Amount := 0
  AmountUnspent : Amount := 0
  Balance : Option AddressBalance := none
  KnownTransactions : Int := 0
  KnownFundingTxns : Int := 0
  KnownSpendingTxns : Int := 0
deriving DecidableEq

/-- Accumulator of the loop in ReduceAddressHistory: the running received and
sent totals and the three transaction lists. -/
structure ReduceAcc where
  received : Int := 0
  sent : Int := 0
  transactions : List AddressTx := []
  creditTxns : List AddressTx := []
  debitTxns : List AddressTx := []
deriving DecidableEq

/-- The loop of ReduceAddressHistory.  The Go loop scans the rows left to
right appending at the tail of each list; this structural recursion prepends
the current row's entries to the result for the remaining rows, producing the
identical lists and totals. -/
def reduceAddressRows : List AddressRow → ReduceAcc
  | [] => {}
  | addrOut :: rest =>
      let coin := Amount.ToCoin (addrOut.Value : Int)
      let fundingTx : AddressTx :=
        { TxID := addrOut.FundingTxHash
          InOutID := addrOut.FundingTxVoutIndex
          ReceivedTotal := coin }
      let acc := reduceAddressRows rest
      if addrOut.SpendingTxHash = "" then
        { acc with
            received := (addrOut.Value : Int) + acc.received
            transactions := fundingTx :: acc.transactions
            creditTxns := fundingTx :: acc.creditTxns }
      else
        let spendingTx : AddressTx :=
          { TxID := addrOut.SpendingTxHash
            InOutID := addrOut.SpendingTxVinIndex
            SentTotal := coin }
        { acc with
            received := (addrOut.Value : Int) + acc.received
            sent := (addrOut.Value : Int) + acc.sent
            transactions := fundingTx :: spendingTx :: acc.transactions
            creditTxns := fundingTx :: acc.creditTxns
            debitTxns := spendingTx :: acc.debitTxns }

/-- ReduceAddressHistory generates a template AddressInfo from a slice of
address rows (explorertypes.go); a nil result is modelled as none. -/
def ReduceAddressHistory (addrHist : List AddressRow) : Option AddressInfo :=
  match addrHist with
  | [] => none
  | first :: _ =>
      let acc := reduceAddressRows addrHist
      some
        { Address := first.Address
          Transactions := acc.transactions
          TxnsFunding := acc.creditTxns
          TxnsSpending := acc.debitTxns
          NumFundingTxns := (acc.creditTxns.length : Int)
          NumSpendingTxns := (acc.debitTxns.length : Int)
          AmountReceived := acc.received
          AmountSent := acc.sent
          AmountUnspent := acc.received - acc.sent }

/-- Modelled from the spec: txhelpers.VoteChoice is not under src and no claim
inspects it; it is kept as an abstract identifier. -/
structure VoteChoice where
  Id : String := ""
deriving DecidableEq

/-- BlockValidation models data about a vote's decision on a block
(explorertypes.go). -/
structure BlockValidation where
  Hash : String := ""
  Height : Int := 0
  Validity : Bool := false
deriving DecidableEq

/-- VoteInfo models data about a SSGen transaction (explorertypes.go). -/
structure VoteInfo where
  Validation : BlockValidation := {}
  Version : Nat := 0
  Bits : Nat := 0
  Choices : List VoteChoice := []
  TicketSpent : String := ""
  MempoolTicketIndex : Int := 0
deriving DecidableEq

/-- MempoolTx models the tx basic data for the mempool page
(explorertypes.go).  The Go field Type is a Lean keyword and is named TxType
here. -/
structure MempoolTx where
  Hash : String := ""
  Time : Int := 0
  Size : Int := 0
  TotalOut : Rat := 0
  TxType : String := ""
  VoteInfo : Option VoteInfo := none
deriving DecidableEq

/-- MempoolShort represents the mempool data sent as the mempool update
(explorertypes.go).  The Go map for TicketIndexes is modelled as an
association list. -/
structure MempoolShort where
  LastBlockHeight : Int := 0
  LastBlockTime : Int := 0
  TotalOut : Rat := 0
  TotalSize : Int := 0
  NumTickets : Int := 0
  NumVotes : Int := 0
  NumRegular : Int := 0
  NumRevokes : Int := 0
  NumAll : Int := 0
  LatestTransactions : List MempoolTx := []
  FormattedTotalSize : String := ""
  TicketIndexes : List (String × Int) := []
deriving DecidableEq

/-- MempoolInfo models data to update mempool info on the home page
(explorertypes.go).  The embedded sync.RWMutex is modelled by lock events in
the producer traces; the embedded MempoolShort is the field `short`. -/
structure MempoolInfo where
  short : MempoolShort := {}
  Transactions : List MempoolTx := []
  Tickets : List MempoolTx := []
  Votes : List MempoolTx := []
  Revocations : List MempoolTx := []
deriving DecidableEq

/-- BlockBasic models data for the explorer's explorer page
(explorertypes.go).  Defaults are the Go zero values, so a composite literal
omitting a field leaves it at its zero value, as in Go. -/
structure BlockBasic where
  Height : Int := 0
  Size : Int := 0
  Valid : Bool := false
  Voters : Nat := 0
  Transactions : Int := 0
  FreshStake : Nat := 0
  Revocations : Nat := 0
  BlockTime : Int := 0
  FormattedTime : String := ""
  FormattedBytes : String := ""
deriving DecidableEq

/-- BlockSubsidy (explorertypes.go). -/
structure BlockSubsidy where
  Total : Int := 0
  PoW : Int := 0
  PoS : Int := 0
  Dev : Int := 0
deriving DecidableEq

/-- ChainParams models simple data about the chain server's parameters
(explorertypes.go). -/
structure ChainParams where
  WindowSize : Int := 0
  RewardWindowSize : Int := 0
  TargetPoolSize : Int := 0
  BlockTime : Int := 0
deriving DecidableEq

/-- TicketPoolInfo describes the live ticket pool (explorertypes.go). -/
structure TicketPoolInfo where
  Size : Nat := 0
  Value : Rat := 0
  ValAvg : Rat := 0
  Percentage : Rat := 0
  Target : Nat := 0
  PercentTarget : Rat := 0
deriving DecidableEq

/-- HomeInfo represents data used for the home page (explorertypes.go). -/
structure HomeInfo where
  CoinSupply : Int := 0
  StakeDiff : Rat := 0
  IdxBlockInWindow : Int := 0
  IdxInRewardWindow : Int := 0
  Difficulty : Rat := 0
  DevFund : Int := 0
  DevAddress : String := ""
  TicketROI : Rat := 0
  ROIPeriod : String := ""
  NBlockSubsidy : BlockSubsidy := {}
  Params : ChainParams := {}
  PoolInfo : TicketPoolInfo := {}
deriving DecidableEq

/-- Modelled from the spec: chaincfg.Params is external to src; only
StakeDiffWindowSize is read by the code under src. -/
structure ChaincfgParams where
  StakeDiffWindowSize : Int := 0
deriving DecidableEq

/-- Modelled from the spec: the result type of
blockdata.BlockData.ToBlockExplorerSummary is not under src; it carries the
per-block fields Store reads plus the block validity flag the spec lists for
ChainSummary. -/
structure BlockExplorerSummary where
  Height : Nat := 0
  Size : Nat := 0
  Valid : Bool := false
  Voters : Nat := 0
  TxLen : Int := 0
  FreshStake : Nat := 0
  Revocations : Nat := 0
  Time : Int := 0
  FormattedTime : String := ""
deriving DecidableEq

/-- Modelled from the spec: the block header type is not under src; Store
reads only its Difficulty. -/
structure BlockHeader where
  Difficulty : Rat := 0
deriving DecidableEq

/-- Modelled from the spec: the stake difficulty result type is not under
src; Store reads only CurrentStakeDifficulty. -/
structure GetStakeDifficultyResult where
  CurrentStakeDifficulty : Rat := 0
deriving DecidableEq

/-- Modelled from the spec: the next-block subsidy breakdown read by Store. -/
structure BlockSubsidyInfo where
  Developer : Int := 0
  PoS : Int := 0
  PoW : Int := 0
  Total : Int := 0
deriving DecidableEq

/-- Modelled from the spec: the extra block info read by Store. -/
structure BlockDataExtra where
  CoinSupply : Int := 0
  NextBlockSubsidy : BlockSubsidyInfo := {}
deriving DecidableEq

/-- Modelled from the spec: blockdata.BlockData is not under src; it carries
the fields Store reads and the summary returned by ToBlockExplorerSummary. -/
structure BlockData where
  Header : BlockHeader := {}
  ExtraInfo : BlockDataExtra := {}
  CurrentStakeDiff : GetStakeDifficultyResult := {}
  IdxBlockInWindow : Int := 0
  summary : BlockExplorerSummary := {}
deriving DecidableEq

/-- Modelled from the spec: ToBlockExplorerSummary projects the block summary
out of the block data. -/
def BlockData.ToBlockExplorerSummary (bd : BlockData) : BlockExplorerSummary :=
  bd.summary

/-- Modelled from the spec: mempool.MempoolData is not under src; per the
data model it holds the counts of pending tickets/votes/regular/revocations,
total value and size, the recent-transaction list and the ticket index. -/
structure MempoolData where
  NumTickets : Int := 0
  NumVotes : Int := 0
  NumRegular : Int := 0
  NumRevokes : Int := 0
  TotalOut : Rat := 0
  TotalSize : Int := 0
  LatestTransactions : List MempoolTx := []
  TicketIndexes : List (String × Int) := []
deriving DecidableEq

/-- The external go-humanize Bytes formatter; used here only as an
uninterpreted string encoding of a byte count. -/
def humanizeBytes (n : Nat) : String := toString n ++ " B"

/-- Names of the two mutexes of explorerUI: the chain-summary guard
NewBlockDataMtx and the RWMutex embedded in MempoolData. -/
inductive LockName
  | NewBlockDataMtx
  | MempoolDataMtx
deriving DecidableEq

/-- Which side of a sync.RWMutex an operation takes: Lock/Unlock is
exclusive, RLock/RUnlock is shared. -/
inductive LockKind
  | exclusive
  | shared
deriving DecidableEq

/-- The guarded record fields mutated by the producer entry points. -/
inductive RecordField
  | FNewBlockData
  | FExtraInfo
  | FMempoolNumTickets
deriving DecidableEq

/-- The hub signal constants sent on wsHub.HubRelay; bare markers carrying no
payload. -/
inductive HubSignal
  | sigNewBlock
  | sigMempoolUpdate
deriving DecidableEq

/-- One step performed by a producer entry point, in program order. -/
inductive Event
  | acquire (l : LockName) (k : LockKind)
  | release (l : LockName) (k : LockKind)
  | write (f : RecordField)
  | hubSend (s : HubSignal)
deriving DecidableEq

/-- The guarded mutable state of explorerUI: the chain summary record
(NewBlockData plus ExtraInfo) and the mempool record. -/
structure ExplorerState where
  NewBlockData : BlockBasic := {}
  ExtraInfo : HomeInfo := {}
  MempoolData : MempoolInfo := {}
deriving DecidableEq

/-- Result of a producer entry point: the updated state, the trace of lock,
write and send events in program order, and the Go error return (none is
nil). -/
structure StoreResult where
  st : ExplorerState
  events : List Event
  ret : Option String
deriving DecidableEq

/-- wire.MsgBlock is ignored by Store; modelled as a unit placeholder. -/
abbrev MsgBlock := Unit

/-- explorerUI.Store: the new-block producer entry point.  Mirrors the
source: Lock NewBlockDataMtx, build BlockBasic from the block summary (the
composite literal does not mention Valid, which therefore keeps its zero
value), build HomeInfo from the block data and the configured chain
parameters, store both, Unlock, then send sigNewBlock on the hub relay and
return nil. -/
def Store (chainParams : ChaincfgParams) (exp : ExplorerState)
    (blockData : BlockData) (_msgBlock : MsgBlock) : StoreResult :=
  let bData := blockData.ToBlockExplorerSummary
  let newBlockData : BlockBasic :=
    { Height := (bData.Height : Int)
      Voters := bData.Voters
      FreshStake := bData.FreshStake
      Size := (bData.Size : Int)
      Transactions := bData.TxLen
      BlockTime := bData.Time
      FormattedTime := bData.FormattedTime
      FormattedBytes := humanizeBytes bData.Size
      Revocations := bData.Revocations }
  let extraInfo : HomeInfo :=
    { CoinSupply := blockData.ExtraInfo.CoinSupply
      StakeDiff := blockData.CurrentStakeDiff.CurrentStakeDifficulty
      IdxBlockInWindow := blockData.IdxBlockInWindow
      Difficulty := blockData.Header.Difficulty
      NBlockSubsidy :=
        { Dev := blockData.ExtraInfo.NextBlockSubsidy.Developer
          PoS := blockData.ExtraInfo.NextBlockSubsidy.PoS
          PoW := blockData.ExtraInfo.NextBlockSubsidy.PoW
          Total := blockData.ExtraInfo.NextBlockSubsidy.Total }
      Params := { WindowSize := chainParams.StakeDiffWindowSize } }
  { st := { exp with NewBlockData := newBlockData, ExtraInfo := extraInfo }
    events :=
      [Event.acquire LockName.NewBlockDataMtx LockKind.exclusive,
       Event.write RecordField.FNewBlockData,
       Event.write RecordField.FExtraInfo,
       Event.release LockName.NewBlockDataMtx LockKind.exclusive,
       Event.hubSend HubSignal.sigNewBlock]
    ret := none }

/-- explorerUI.StoreMPData: the mempool producer entry point.  Mirrors the
source: RLock the mempool record's mutex (the shared side), assign
NumTickets from the incoming data, RUnlock, then send sigMempoolUpdate on
the hub relay and return nil.  The timestamp argument is unused by the
body. -/
def StoreMPData (exp : ExplorerState) (data : MempoolData)
    (_timestamp : Int) : StoreResult :=
  { st :=
      { exp with
          MempoolData :=
            { exp.MempoolData with
                short :=
                  { exp.MempoolData.short with NumTickets := data.NumTickets } } }
    events :=
      [Event.acquire LockName.MempoolDataMtx LockKind.shared,
       Event.write RecordField.FMempoolNumTickets,
       Event.release LockName.MempoolDataMtx LockKind.shared,
       Event.hubSend HubSignal.sigMempoolUpdate]
    ret := none }

/-- True when some hub send in the trace happens while the held-lock
multiset (seeded by the first argument) is nonempty. -/
def sendWhileLocked : List (LockName × LockKind) → List Event → Bool
  | _, [] => false
  | held, Event.acquire l k :: rest => sendWhileLocked ((l, k) :: held) rest
  | held, Event.release l k :: rest => sendWhileLocked (List.erase held (l, k)) rest
  | held, Event.write _ :: rest => sendWhileLocked held rest
  | held, Event.hubSend _ :: rest => !held.isEmpty || sendWhileLocked held rest

/-- For each write event of the trace, the locks held when it executes. -/
def writeLockSets :
    List (LockName × LockKind) → List Event → List (RecordField × List (LockName × LockKind))
  | _, [] => []
  | held, Event.acquire l k :: rest => writeLockSets ((l, k) :: held) rest
  | held, Event.release l k :: rest => writeLockSets (List.erase held (l, k)) rest
  | held, Event.write f :: rest => (f, held) :: writeLockSets held rest
  | held, Event.hubSend _ :: rest => writeLockSets held rest

/-- Whether an event is a send into the hub relay channel. -/
def isSend : Event → Bool
  | Event.hubSend _ => true
  | _ => false

/-- The prefix of the trace strictly before its first hub send. -/
def beforeFirstSend (tr : List Event) : List Event :=
  tr.takeWhile fun e => !isSend e

/-- The signals sent into the hub relay channel, in order. -/
def sends (tr : List Event) : List HubSignal :=
  tr.filterMap fun e =>
    match e with
    | Event.hubSend s => some s
    | _ => none

/-- The lock names touched (acquired or released) by the trace, in order. -/
def locksUsed (tr : List Event) : List LockName :=
  tr.filterMap fun e =>
    match e with
    | Event.acquire l _ => some l
    | Event.release l _ => some l
    | _ => none

/-- The lock acquisitions of the trace, with their kind, in order. -/
def acquiresOf (tr : List Event) : List (LockName × LockKind) :=
  tr.filterMap fun e =>
    match e with
    | Event.acquire l k => some (l, k)
    | _ => none

/-- The error value returned by hub operations attempted after Stop. -/
inductive HubError
  | HubClosed
deriving DecidableEq

/-- Registration token of one live subscriber session. -/
structure SubscriberHandle where
  id : Nat := 0
deriving DecidableEq

/-- Modelled from the spec: the WebsocketHub implementation (its run loop,
Stop, Register and Broadcast) is not under src, only its callers are.  Per
the spec, the hub owns the registry of subscriber handles; Stop closes the
hub and releases all subscriber references; Register and Broadcast attempted
after Stop fail with the hub-closed condition instead of blocking or
panicking. -/
structure WebsocketHub where
  clients : List SubscriberHandle := []
  nextId : Nat := 0
  closed : Bool := false
deriving DecidableEq

/-- Modelled from the spec: Stop closes the hub for new work and releases
all subscriber references. -/
def WebsocketHub.Stop (h : WebsocketHub) : WebsocketHub :=
  { h with closed := true, clients := [] }

/-- Modelled from the spec: Register admits a new subscriber handle, failing
with HubClosed once the hub is stopped. -/
def WebsocketHub.Register (h : WebsocketHub) :
    Except HubError (WebsocketHub × SubscriberHandle) :=
  if h.closed then Except.error HubError.HubClosed
  else
    let handle : SubscriberHandle := { id := h.nextId }
    Except.ok ({ h with clients := h.clients ++ [handle], nextId := h.nextId + 1 }, handle)

/-- Modelled from the spec: Broadcast enqueues a notification request,
failing with HubClosed once the hub is stopped. -/
def WebsocketHub.Broadcast (h : WebsocketHub) (_s : HubSignal) :
    Except HubError WebsocketHub :=
  if h.closed then Except.error HubError.HubClosed else Except.ok h

/-- The zero-valued explorer state present at service start. -/
def explorerState0 : ExplorerState := {}

/-- Concrete chain parameters for counterexample evaluation. -/
def chainParams0 : ChaincfgParams := {}

/-- Concrete mempool data whose pending-vote count is 3. -/
def mpDataVotes3 : MempoolData := { NumVotes := 3 }

/-- Concrete mempool data with one pending ticket. -/
def mpDataTickets1 : MempoolData := { NumTickets := 1 }

/-- Concrete block data whose summary carries validity flag true. -/
def blockDataValid : BlockData := { summary := { Valid := true } }

/-- Concrete address history of one row that is both funded and spent. -/
def rowsW : List AddressRow :=
  [{ Address := "DsExample", FundingTxHash := "f0", SpendingTxHash := "s0" }]

/-- The AddressInfo produced by ReduceAddressHistory on rowsW. -/
def infoW : AddressInfo :=
  { Address := "DsExample"
    Transactions :=
      [{ TxID := "f0", ReceivedTotal := 0 }, { TxID := "s0", SentTotal := 0 }]
    TxnsFunding := [{ TxID := "f0", ReceivedTotal := 0 }]
    TxnsSpending := [{ TxID := "s0", SentTotal := 0 }]
    NumFundingTxns := 1
    NumSpendingTxns := 1
    AmountReceived := 0
    AmountSent := 0
    AmountUnspent := 0 }

theorem reduceAddressRows_credit_length (l : List AddressRow) :
    (reduceAddressRows l).creditTxns.length = l.length := by
  induction l with
  | nil => rfl
  | cons a rest ih =>
      by_cases h : a.SpendingTxHash = "" <;>
        simp [reduceAddressRows, h, ih]

theorem reduceAddressRows_debit_length (l : List AddressRow) :
    (reduceAddressRows l).debitTxns.length
      = (l.filter fun r => r.SpendingTxHash ≠ "").length := by
  induction l with
  | nil => rfl
  | cons a rest ih =>
      by_cases h : a.SpendingTxHash = "" <;>
        simp [reduceAddressRows, List.filter_cons, h, ih]

theorem reduceAddressRows_trans_length (l : List AddressRow) :
    (reduceAddressRows l).transactions.length
      = (reduceAddressRows l).creditTxns.length
        + (reduceAddressRows l).debitTxns.length := by
  induction l with
  | nil => rfl
  | cons a rest ih =>
      by_cases h : a.SpendingTxHash = "" <;>
        simp [reduceAddressRows, h, ih] <;> omega

/-- Claim C10: ReduceAddressHistory returns nil exactly when its input slice
is empty; for every non-empty input the returned AddressInfo satisfies
AmountUnspent = AmountReceived - AmountSent, NumFundingTxns equals the
number of input rows, NumSpendingTxns equals the number of input rows with a
non-empty SpendingTxHash, and the Transactions list has length
NumFundingTxns + NumSpendingTxns. -/
theorem reduceAddressHistory_spec (addrHist : List AddressRow) :
    (ReduceAddressHistory addrHist = none ↔ addrHist = []) ∧
    ∀ info, ReduceAddressHistory addrHist = some info →
      info.AmountUnspent = info.AmountReceived - info.AmountSent ∧
      info.NumFundingTxns = (addrHist.length : Int) ∧
      info.NumSpendingTxns
        = ((addrHist.filter fun r => r.SpendingTxHash ≠ "").length : Int) ∧
      (info.Transactions.length : Int)
        = info.NumFundingTxns + info.NumSpendingTxns := by
  constructor
  · cases addrHist <;> simp [ReduceAddressHistory]
  · intro info h
    cases addrHist with
    | nil => simp [ReduceAddressHistory] at h
    | cons a rest =>
        simp only [ReduceAddressHistory, Option.some.injEq] at h
        subst h
        refine ⟨rfl, ?_, ?_, ?_⟩
        · exact congrArg (fun n : Nat => (n : Int))
            (reduceAddressRows_credit_length (a :: rest))
        · exact congrArg (fun n : Nat => (n : Int))
            (reduceAddressRows_debit_length (a :: rest))
        · have := reduceAddressRows_trans_length (a :: rest)
          simp only [this]
          push_cast
          ring

/-- Witness for C10: the theorem applied to the concrete one-row history
rowsW, whose row is both funded and spent, with its hypothesis discharged by
evaluation. -/
theorem reduceAddressHistory_spec_witness :
    infoW.AmountUnspent = infoW.AmountReceived - infoW.AmountSent ∧
    infoW.NumFundingTxns = (rowsW.length : Int) ∧
    infoW.NumSpendingTxns
      = ((rowsW.filter fun r => r.SpendingTxHash ≠ "").length : Int) ∧
    (infoW.Transactions.length : Int)
      = infoW.NumFundingTxns + infoW.NumSpendingTxns :=
  (reduceAddressHistory_spec rowsW).2 infoW (by
    simp [rowsW, infoW, ReduceAddressHistory, reduceAddressRows, Amount.ToCoin])

/-- Counterexample to claim C1 as stated: StoreMPData does not replace the
mempool record wholesale; at the zero-valued store and incoming mempool data
with three pending votes, the stored pending-vote count differs from the
count carried by the data. -/
theorem storeMPData_not_wholesale_cex :
    (StoreMPData explorerState0 mpDataVotes3 0).st.MempoolData.short.NumVotes
      ≠ mpDataVotes3.NumVotes := by
  decide

/-- Claim C1 as amended: StoreMPData copies only NumTickets from the
incoming data into the stored mempool record; every other field of the
store, including all other mempool fields, is left unchanged. -/
theorem storeMPData_updates_only_numTickets (exp : ExplorerState)
    (data : MempoolData) (t : Int) :
    (StoreMPData exp data t).st.MempoolData.short.NumTickets = data.NumTickets ∧
    (StoreMPData exp data t).st
      = { exp with
            MempoolData :=
              { exp.MempoolData with
                  short :=
                    { exp.MempoolData.short with
                        NumTickets := data.NumTickets } } } :=
  ⟨rfl, rfl⟩

/-- Claim C2: the single mempool write performed by StoreMPData executes
while only the shared (read) side of the mempool record's RWMutex is held,
and the trace contains no exclusive acquisition of that mutex — the code
takes RLock, not Lock, around the write. -/
theorem storeMPData_write_under_shared_lock :
    writeLockSets [] (StoreMPData explorerState0 mpDataTickets1 0).events
      = [(RecordField.FMempoolNumTickets,
          [(LockName.MempoolDataMtx, LockKind.shared)])] ∧
    (LockName.MempoolDataMtx, LockKind.exclusive)
      ∉ acquiresOf (StoreMPData explorerState0 mpDataTickets1 0).events := by
  decide

/-- Claim C3 as amended: Store fills the stored BlockBasic with height,
size, voter/fresh-stake/revocation counts, transaction count, block time and
the formatted strings from the block summary, and fills ExtraInfo with coin
supply, stake difficulty, the block-window index, difficulty, the subsidy
breakdown and the stake-difficulty window size; the validity flag, the
reward-window index and the remaining HomeInfo and ChainParams fields are
left at their zero values. -/
theorem store_sets_listed_fields (cp : ChaincfgParams) (exp : ExplorerState)
    (bd : BlockData) (m : MsgBlock) :
    (Store cp exp bd m).st.NewBlockData
      = { Height := (bd.ToBlockExplorerSummary.Height : Int)
          Size := (bd.ToBlockExplorerSummary.Size : Int)
          Valid := false
          Voters := bd.ToBlockExplorerSummary.Voters
          Transactions := bd.ToBlockExplorerSummary.TxLen
          FreshStake := bd.ToBlockExplorerSummary.FreshStake
          Revocations := bd.ToBlockExplorerSummary.Revocations
          BlockTime := bd.ToBlockExplorerSummary.Time
          FormattedTime := bd.ToBlockExplorerSummary.FormattedTime
          FormattedBytes := humanizeBytes bd.ToBlockExplorerSummary.Size } ∧
    (Store cp exp bd m).st.ExtraInfo
      = { CoinSupply := bd.ExtraInfo.CoinSupply
          StakeDiff := bd.CurrentStakeDiff.CurrentStakeDifficulty
          IdxBlockInWindow := bd.IdxBlockInWindow
          IdxInRewardWindow := 0
          Difficulty := bd.Header.Difficulty
          NBlockSubsidy :=
            { Dev := bd.ExtraInfo.NextBlockSubsidy.Developer
              PoS := bd.ExtraInfo.NextBlockSubsidy.PoS
              PoW := bd.ExtraInfo.NextBlockSubsidy.PoW
              Total := bd.ExtraInfo.NextBlockSubsidy.Total }
          Params := { WindowSize := cp.StakeDiffWindowSize } } :=
  ⟨rfl, rfl⟩

/-- Counterexample to claim C3 as stated: at a concrete block whose summary
carries validity flag true, the stored validity flag after Store is not the
value taken from the block data — the composite literal in Store never sets
Valid, so it stays false. -/
theorem store_validity_flag_cex :
    (Store chainParams0 explorerState0 blockDataValid ()).st.NewBlockData.Valid
      ≠ blockDataValid.ToBlockExplorerSummary.Valid := by
  decide

/-- Claim C4: in both producer entry points every lock is released before
the signal is sent into the hub relay channel — no hub send in either trace
occurs while any lock is held. -/
theorem no_lock_held_across_hub_send (cp : ChaincfgParams)
    (exp exp' : ExplorerState) (bd : BlockData) (m : MsgBlock)
    (d : MempoolData) (t : Int) :
    sendWhileLocked [] (Store cp exp bd m).events = false ∧
    sendWhileLocked [] (StoreMPData exp' d t).events = false :=
  ⟨rfl, rfl⟩

/-- Claim C5: in Store's trace, the writes of the chain summary record
(NewBlockData and ExtraInfo) both occur strictly before the first hub send,
and the only signal sent is sigNewBlock — the stored snapshot already
includes the update when the signal is enqueued. -/
theorem store_update_precedes_newblock_signal (cp : ChaincfgParams)
    (exp : ExplorerState) (bd : BlockData) (m : MsgBlock) :
    beforeFirstSend (Store cp exp bd m).events
      = [Event.acquire LockName.NewBlockDataMtx LockKind.exclusive,
         Event.write RecordField.FNewBlockData,
         Event.write RecordField.FExtraInfo,
         Event.release LockName.NewBlockDataMtx LockKind.exclusive] ∧
    sends (Store cp exp bd m).events = [HubSignal.sigNewBlock] :=
  ⟨rfl, rfl⟩

/-- Claim C6: StoreMPData sends exactly the bare sigMempoolUpdate marker on
the hub relay channel, and its trace is identical for any two mempool data
values and timestamps — no mempool payload is embedded in the signal. -/
theorem storeMPData_sends_bare_marker (exp : ExplorerState)
    (d d' : MempoolData) (t t' : Int) :
    sends (StoreMPData exp d t).events = [HubSignal.sigMempoolUpdate] ∧
    (StoreMPData exp d t).events = (StoreMPData exp d' t').events :=
  ⟨rfl, rfl⟩

/-- Claim C7: Store touches only NewBlockDataMtx (one acquire and one
release) and StoreMPData touches only the mempool record's mutex, so the
two records are guarded by distinct, independent locks. -/
theorem store_locks_independent (cp : ChaincfgParams)
    (exp exp' : ExplorerState) (bd : BlockData) (m : MsgBlock)
    (d : MempoolData) (t : Int) :
    locksUsed (Store cp exp bd m).events
      = [LockName.NewBlockDataMtx, LockName.NewBlockDataMtx] ∧
    locksUsed (StoreMPData exp' d t).events
      = [LockName.MempoolDataMtx, LockName.MempoolDataMtx] :=
  ⟨rfl, rfl⟩

/-- Claim C8: stopping the hub is idempotent — a second Stop has no
additional effect — and after the first Stop both Broadcast and Register
fail with the hub-closed error. -/
theorem hub_stop_idempotent_and_closed (h : WebsocketHub) (s : HubSignal) :
    h.Stop.Stop = h.Stop ∧
    h.Stop.Broadcast s = Except.error HubError.HubClosed ∧
    h.Stop.Register = Except.error HubError.HubClosed :=
  ⟨rfl, rfl, rfl⟩

/-- Claim C9: both producer entry points return nil for every input. -/
theorem producers_always_return_nil (cp : ChaincfgParams)
    (exp exp' : ExplorerState) (bd : BlockData) (m : MsgBlock)
    (d : MempoolData) (t : Int) :
    (Store cp exp bd m).ret = none ∧ (StoreMPData exp' d t).ret = none :=
  ⟨rfl, rfl⟩

end Explorer
